import Mathlib

/-!
Shallow embedding of the VibePruner transactional file-operation core
(migration_tracker.py, rollback_manager.py, session_manager.py,
audit_logger.py) and proofs about the frozen claims.

Modelling conventions:
* The filesystem is a partial map from (absolute, resolved) path strings to
  files; a file carries its content, its mtime and its permission bits.
  Directories are implicit in the path map (`mkdir(parents=True)` has no
  separate observable effect in this model).
* ISO-8601 timestamp strings compare lexicographically exactly as the
  instants they denote compare chronologically, so timestamps are modelled
  as naturals ordered by `<`.
* SHA-256 digests are used by the code only through equality tests, so the
  digest is an explicit function parameter `hashFn : Content → String`
  (mirroring `MigrationTracker._calculate_file_hash`).
* Python dict records are modelled as structures holding the fields the
  code reads or writes; fields the code leaves absent are `Option`s that
  start as `none`.
-/

namespace VP

abbrev Path := String
abbrev Content := String

/-- A file on disk: content bytes, st_mtime, st_mode.
(`migration_tracker.py` records exactly size, mtime and mode of a source;
size is derived here as the content length.) -/
structure File where
  content : Content
  mtime : Nat
  perms : Nat
deriving DecidableEq

/-- The filesystem: a partial map from paths to files. -/
abbrev FS := Path → Option File

def fsSet (fs : FS) (p : Path) (f : File) : FS :=
  fun q => if q = p then some f else fs q

def fsRemove (fs : FS) (p : Path) : FS :=
  fun q => if q = p then none else fs q

/-- `shutil.move(src, dst)`: the file (content and stat metadata travel with
it) disappears from `src` and appears at `dst`; a missing source is a no-op
here (the code only moves files it just checked to exist). -/
def fsMove (fs : FS) (src dst : Path) : FS :=
  match fs src with
  | some f => fsSet (fsRemove fs src) dst f
  | none => fs

/-- `MigrationRecord.status` values (migration_tracker.py). -/
inductive Status
  | pending
  | success
  | failed
  | rolledBack
deriving DecidableEq

/-- The operation verbs appearing in migration records. -/
inductive Op
  | move
  | copy
  | archive
  | delete
  | consolidate
  | rollbackMove
  | rollbackRestore
deriving DecidableEq

def opName : Op → String
  | Op.move => "move"
  | Op.copy => "copy"
  | Op.archive => "archive"
  | Op.delete => "delete"
  | Op.consolidate => "consolidate"
  | Op.rollbackMove => "rollback_move"
  | Op.rollbackRestore => "rollback_restore"

/-- The caller-supplied opaque metadata. The only shape the core ever reads
back is `metadata['original_files']` (a list of `{path, content}` dicts)
in `RollbackManager._reverse_consolidation`. -/
structure Metadata where
  originalFiles : List (Path × Option Content)
deriving DecidableEq

/-- One attempted file operation (`migration_tracker.track_migration`'s
record dict). Fields the code sets later start as `none`. -/
structure MigrationRecord where
  timestamp : Nat
  transactionId : Option String
  operation : Op
  sourcePath : Path
  destPath : Option Path
  sourceHash : Option String
  destHash : Option String
  fileSize : Nat
  fileModified : Option Nat
  filePermissions : Option Nat
  reason : String
  metadata : Metadata
  status : Status
  error : Option String
  completedAt : Option Nat
  rollbackTime : Option Nat
  /-- Read by `RollbackManager._reverse_migration` for `delete` records
  (`migration.get('archive_path')`); nothing in the core ever sets it. -/
  archivePath : Option Path
deriving DecidableEq

/-- Transaction status strings. (`partFailure` models `'partial_failure'`.) -/
inductive TxStatus
  | inProgress
  | committed
  | partFailure
  | rolledBack
deriving DecidableEq

structure Transaction where
  id : String
  description : String
  startTime : Nat
  operations : List MigrationRecord
  status : TxStatus
  failedOperations : Option Nat
  endTime : Option Nat
  rollbackTime : Option Nat
deriving DecidableEq

/-- One persistence call performed by a tracker operation. -/
inductive SaveAction
  | saveMigrations
  | saveTransaction
  | archiveTransaction (id : String)
deriving DecidableEq

/-- The in-memory tracker state: the master migration log, the current
transaction slot, and the archived transactions directory
(`transactions/<id>.json`, keyed by id). -/
structure TrackerState where
  migrations : List MigrationRecord
  currentTransaction : Option Transaction
  archivedTransactions : List (String × Transaction)
deriving DecidableEq

/-- Transaction id generation: `strftime('%Y%m%d_%H%M%S_') +
md5(description)[:8]`, i.e. an identifier determined by the clock and the
description. -/
def transactionId (now : Nat) (description : String) : String :=
  toString now ++ "_" ++ description

/-- `MigrationTracker.start_transaction`. The code performs no check on
`self.current_transaction`: it unconditionally overwrites the slot with a
fresh empty transaction and persists it (`_save_transaction`). Returns the
new state, the transaction id, and the persistence calls made. -/
def start_transaction (now : Nat) (description : String) (st : TrackerState) :
    TrackerState × String × List SaveAction :=
  let tid := transactionId now description
  let tx : Transaction :=
    { id := tid
      description := description
      startTime := now
      operations := []
      status := TxStatus.inProgress
      failedOperations := none
      endTime := none
      rollbackTime := none }
  ({ st with currentTransaction := some tx }, tid, [SaveAction.saveTransaction])

/-- The record dict built inside `MigrationTracker.track_migration`:
source hash and stat metadata are captured only if the source currently
exists (a missing source yields null hash / empty metadata, hence
`size = 0` via `file_metadata.get('size', 0)`). -/
def migrationRecordFor (hashFn : Content → String) (now : Nat) (fs : FS)
    (txId : Option String) (src : Path) (dst : Option Path) (op : Op)
    (reason : String) (meta : Metadata) : MigrationRecord :=
  { timestamp := now
    transactionId := txId
    operation := op
    sourcePath := src
    destPath := dst
    sourceHash := (fs src).map (fun f => hashFn f.content)
    destHash := none
    fileSize := ((fs src).map (fun f => f.content.length)).getD 0
    fileModified := (fs src).map (fun f => f.mtime)
    filePermissions := (fs src).map (fun f => f.perms)
    reason := reason
    metadata := meta
    status := Status.pending
    error := none
    completedAt := none
    rollbackTime := none
    archivePath := none }

/-- `MigrationTracker.track_migration`: builds the pending record, appends
it to the active transaction (if any, persisting the transaction log) and
to the master log (persisting it). In Python the appended dict is the same
object in both lists and is the object returned to the caller. -/
def track_migration (hashFn : Content → String) (now : Nat) (fs : FS)
    (st : TrackerState) (src : Path) (dst : Option Path) (op : Op)
    (reason : String) (meta : Metadata) :
    TrackerState × MigrationRecord × List SaveAction :=
  let r := migrationRecordFor hashFn now fs (st.currentTransaction.map (fun t => t.id))
    src dst op reason meta
  match st.currentTransaction with
  | some tx =>
      ({ st with
          currentTransaction := some { tx with operations := tx.operations ++ [r] }
          migrations := st.migrations ++ [r] },
        r, [SaveAction.saveTransaction, SaveAction.saveMigrations])
  | none =>
      ({ st with migrations := st.migrations ++ [r] },
        r, [SaveAction.saveMigrations])

/-- `MigrationTracker.complete_migration` acting on one record (in Python
the record is mutated in place, so the master log sees the same update).
Sets the terminal status from `success`, records `completed_at` and the
error argument; then, only when `success` is reported, the destination
path is present and the destination file exists, computes `dest_hash` and
— for move/copy/archive with a known `source_hash` — downgrades a
mismatching record to `failed` with `'Hash verification failed'`. -/
def complete_migration (hashFn : Content → String) (fs : FS) (now : Nat)
    (r : MigrationRecord) (success : Bool) (error : Option String) : MigrationRecord :=
  let r1 : MigrationRecord :=
    { r with
        status := if success then Status.success else Status.failed
        completedAt := some now
        error := match error with
          | some e => some e
          | none => r.error }
  if success then
    match r1.destPath with
    | some d =>
        match fs d with
        | some f =>
            let r2 := { r1 with destHash := some (hashFn f.content) }
            match r2.sourceHash with
            | some h =>
                if r2.operation = Op.move ∨ r2.operation = Op.copy ∨
                    r2.operation = Op.archive then
                  if h ≠ hashFn f.content then
                    { r2 with
                        status := Status.failed
                        error := some "Hash verification failed" }
                  else r2
                else r2
            | none => r2
        | none => r1
    | none => r1
  else r1

/-- `MigrationTracker.commit_transaction`: stamps the end time, sets status
`committed`, overrides it to `partial_failure` (and counts the failures)
when any member operation is not `success`, persists the transaction log,
archives the transaction to `transactions/<id>.json`, and clears the
active-transaction slot. With no active transaction it only logs a
warning. -/
def commit_transaction (now : Nat) (st : TrackerState) :
    TrackerState × List SaveAction :=
  match st.currentTransaction with
  | none => (st, [])
  | some tx =>
      let failedOps := tx.operations.filter (fun op => op.status ≠ Status.success)
      let tx1 : Transaction :=
        { tx with
            endTime := some now
            status := if failedOps.length = 0 then TxStatus.committed else TxStatus.partFailure
            failedOperations := if failedOps.length = 0 then tx.failedOperations
              else some failedOps.length }
      ({ st with
          currentTransaction := none
          archivedTransactions := st.archivedTransactions ++ [(tx1.id, tx1)] },
        [SaveAction.saveTransaction, SaveAction.archiveTransaction tx1.id])

/-- `MigrationTracker._reverse_operation`. For move/archive: if the
destination file exists, move it back to the source path (parent
directories are recreated; the file keeps its current content, mtime and
mode through the move) and then `chmod` the source to the saved
`file_permissions` when one was recorded — the saved mtime is never
restored on this path. Deletes are not reversible here; a copy's
destination is unlinked. A missing destination is silently skipped. -/
def reverse_operation (fs : FS) (r : MigrationRecord) : FS :=
  match r.operation with
  | Op.move | Op.archive =>
      match r.destPath with
      | some d =>
          match fs d with
          | some f =>
              let fs1 := fsSet (fsRemove fs d) r.sourcePath f
              match r.filePermissions with
              | some p => fsSet fs1 r.sourcePath { f with perms := p }
              | none => fs1
          | none => fs
      | none => fs
  | Op.copy =>
      match r.destPath with
      | some d => if (fs d).isSome then fsRemove fs d else fs
      | none => fs
  | _ => fs

/-- The reversal loop of `MigrationTracker.rollback_transaction`: the
transaction's operations are processed in strict reverse order and each
`success` record's filesystem effect is reversed. -/
def reverseAll (fs : FS) (ops : List MigrationRecord) : FS :=
  ops.reverse.foldl
    (fun acc r => if r.status = Status.success then reverse_operation acc r else acc) fs

/-- The per-record status update of `rollback_transaction`: a `success`
record becomes `rolled_back` with a rollback timestamp (reversal
exceptions, which would leave the status untouched, are filesystem faults
outside this model). -/
def markRolledBack (now : Nat) (r : MigrationRecord) : MigrationRecord :=
  if r.status = Status.success then
    { r with status := Status.rolledBack, rollbackTime := some now }
  else r

/-- `MigrationTracker.rollback_transaction`. With an id, the transaction is
loaded from the archive (`_load_transaction`); without one the current
transaction is used. If neither exists the call logs an error and returns
`False` without touching any state or persisting anything. Otherwise every
`success` operation is reversed in reverse order, records are marked
`rolled_back`, and the logs are persisted (`_save_transaction` writes only
when a current transaction exists). In Python the current transaction's
record dicts are the same objects as the master-log entries, so marking
them updates the master log too; records of an archive-loaded transaction
are fresh copies and the master log keeps its old statuses. -/
def rollback_transaction (now : Nat) (fs : FS) (st : TrackerState)
    (tid : Option String) : Bool × TrackerState × FS × List SaveAction :=
  let txq := match tid with
    | some t => st.archivedTransactions.lookup t
    | none => st.currentTransaction
  match txq with
  | none => (false, st, fs, [])
  | some tx =>
      let fs1 := reverseAll fs tx.operations
      let tx1 : Transaction :=
        { tx with
            operations := tx.operations.map (markRolledBack now)
            status := TxStatus.rolledBack
            rollbackTime := some now }
      let st1 := match tid with
        | none =>
            { st with
                currentTransaction := some tx1
                migrations := st.migrations.map
                  (fun m => if m ∈ tx.operations then markRolledBack now m else m) }
        | some _ => st
      let trace :=
        (if st1.currentTransaction.isSome then [SaveAction.saveTransaction] else [])
          ++ [SaveAction.saveMigrations]
      (true, st1, fs1, trace)

/-- One finding of `verify_migration_integrity`. -/
structure Issue where
  type : String
  message : String
deriving DecidableEq

/-- `MigrationTracker.verify_migration_integrity`: for every `success`
record, re-checks the recorded destination (missing file or changed hash)
and, for `move` records, flags a source file that still exists. -/
def verify_migration_integrity (hashFn : Content → String) (fs : FS)
    (migrations : List MigrationRecord) : List Issue :=
  migrations.foldl
    (fun issues m =>
      if m.status ≠ Status.success then issues
      else
        let issues1 := match m.destPath, m.destHash with
          | some d, some hh =>
              match fs d with
              | none => issues ++ [⟨"missing_destination", "Destination file missing: " ++ d⟩]
              | some f =>
                  if hashFn f.content ≠ hh then
                    issues ++ [⟨"hash_mismatch", "File hash changed: " ++ d⟩]
                  else issues
          | _, _ => issues
        match m.operation with
        | Op.move =>
            if (fs m.sourcePath).isSome then
              issues1 ++ [⟨"source_not_removed",
                "Source file still exists after move: " ++ m.sourcePath⟩]
            else issues1
        | _ => issues1)
    []

/-- A rollback point file `rollback_<id>.json` (rollback_manager.py). The
`project_state` placeholder snapshot carries no information the code ever
reads back, so it is omitted. -/
structure RollbackPoint where
  id : String
  description : String
  createdAt : Nat
  status : String
deriving DecidableEq

/-- One entry of the rollback history log (`_record_rollback`). -/
structure RollbackRecord where
  rollbackId : String
  timestamp : Nat
  success : Bool
  errors : List String
  migrationsReversed : Nat
deriving DecidableEq

/-- The rollback manager's world: the tracker it drives, the filesystem,
the rollback history, and the point files keyed by id. -/
structure ManagerState where
  tracker : TrackerState
  fs : FS
  history : List RollbackRecord
  points : List (String × RollbackPoint)

/-- `RollbackManager._restore_file_metadata`: `os.utime` to the saved
mtime when one was recorded, then `os.chmod` to the saved mode when one
was recorded (one best-effort try block; I/O failures are outside this
model). -/
def restore_file_metadata (r : MigrationRecord) (f : File) : File :=
  let f1 := match r.fileModified with
    | some m => { f with mtime := m }
    | none => f
  match r.filePermissions with
  | some p => { f1 with perms := p }
  | none => f1

/-- `RollbackManager._reverse_consolidation`: re-materialise each original
file whose content was stored in the record's metadata by writing it out
(`open(..., 'w')` creates a fresh file: its mtime is the current clock and
its mode the process default 0o644). -/
def reverse_consolidation (now : Nat) (fs : FS) (r : MigrationRecord) : FS :=
  r.metadata.originalFiles.foldl
    (fun acc pc =>
      match pc.2 with
      | some c => fsSet acc pc.1 { content := c, mtime := now, perms := 420 }
      | none => acc)
    fs

/-- `RollbackManager._reverse_migration`: reverses one record, raising
(`Except.error`) on a missing destination (move/archive) or a missing
archive copy (delete with a recorded `archive_path`). A successful
move/archive reversal moves the destination file back, restores saved
mtime/permissions, and tracks a `rollback_move` migration; a delete with
no recorded archive copy is only a warning; a `copy` record matches no
branch and is left untouched. -/
def reverse_migration (hashFn : Content → String) (now : Nat) (fs : FS)
    (st : TrackerState) (r : MigrationRecord) : Except String (FS × TrackerState) :=
  match r.operation with
  | Op.move | Op.archive =>
      match r.destPath with
      | some d =>
          match fs d with
          | some f =>
              let fs2 := fsSet (fsSet (fsRemove fs d) r.sourcePath f) r.sourcePath
                (restore_file_metadata r f)
              let st1 := (track_migration hashFn now fs2 st d (some r.sourcePath)
                Op.rollbackMove ("Rollback of " ++ opName r.operation) ⟨[]⟩).1
              Except.ok (fs2, st1)
          | none => Except.error ("Destination file not found for rollback: " ++ d)
      | none => Except.error "Destination file not found for rollback: None"
  | Op.delete =>
      match r.archivePath with
      | some a =>
          match fs a with
          | some f =>
              let fs1 := fsSet fs r.sourcePath f
              let st1 := (track_migration hashFn now fs1 st a (some r.sourcePath)
                Op.rollbackRestore "Rollback of delete" ⟨[]⟩).1
              Except.ok (fs1, st1)
          | none => Except.error ("No archive found for deleted file: " ++ r.sourcePath)
      | none => Except.ok (fs, st)
  | Op.consolidate => Except.ok (reverse_consolidation now fs r, st)
  | _ => Except.ok (fs, st)

/-- Accumulator of `rollback_to_point`'s reversal loop. -/
structure RbAcc where
  fs : FS
  st : TrackerState
  errors : List String

/-- One iteration of `rollback_to_point`'s loop: the reversal is attempted
inside a try/except; a failure appends one itemised message to `errors`
and leaves filesystem and tracker as they were. -/
def reverseStep (hashFn : Content → String) (now : Nat) (acc : RbAcc)
    (r : MigrationRecord) : RbAcc :=
  match reverse_migration hashFn now acc.fs acc.st r with
  | Except.ok (fs1, st1) => { acc with fs := fs1, st := st1 }
  | Except.error e =>
      { acc with errors := acc.errors ++
          ["Failed to reverse migration: " ++ r.sourcePath ++ " - " ++ e] }

/-- The whole reversal loop: processes the given list front to back
(`rollback_to_point` passes the filtered migrations already reversed). -/
def reverseLoop (hashFn : Content → String) (now : Nat) (acc : RbAcc)
    (l : List MigrationRecord) : RbAcc :=
  l.foldl (reverseStep hashFn now) acc

/-- `RollbackManager._get_migrations_after`: the master-log records whose
timestamp is strictly greater than the given fence. -/
def get_migrations_after (migrations : List MigrationRecord) (ts : Nat) :
    List MigrationRecord :=
  migrations.filter (fun m => ts < m.timestamp)

/-- `RollbackManager._verify_rollback`: run the tracker's integrity scan
and keep every message except `source_not_removed` findings (expected
right after a rollback). -/
def verify_rollback (hashFn : Content → String) (fs : FS) (st : TrackerState) :
    List String :=
  (verify_migration_integrity hashFn fs st.migrations).foldl
    (fun errs i => if i.type = "source_not_removed" then errs else errs ++ [i.message])
    []

/-- `RollbackManager.rollback_to_point`: a missing point file returns
`(False, [not-found message])` untouched. Otherwise: start a tracker
transaction named for the rollback, collect every master-log record with
`timestamp > point.created_at`, reverse them in strict reverse order
accumulating per-record failures, optionally fold in verification
findings, record the attempt in the rollback history, commit the
transaction, and return `(errors == [], errors)`. -/
def rollback_to_point (hashFn : Content → String) (now : Nat)
    (ms : ManagerState) (rid : String) (verify : Bool) :
    (Bool × List String) × ManagerState :=
  match ms.points.lookup rid with
  | none => ((false, ["Rollback point not found: " ++ rid]), ms)
  | some pt =>
      let st1 := (start_transaction now ("Rollback to " ++ rid) ms.tracker).1
      let toReverse := get_migrations_after st1.migrations pt.createdAt
      let acc := reverseLoop hashFn now ⟨ms.fs, st1, []⟩ toReverse.reverse
      let errs := if verify then acc.errors ++ verify_rollback hashFn acc.fs acc.st
        else acc.errors
      let hist := ms.history ++
        [⟨rid, now, errs.isEmpty, errs,
          (get_migrations_after acc.st.migrations pt.createdAt).length⟩]
      let st2 := (commit_transaction now acc.st).1
      ((errs.isEmpty, errs), ⟨st2, acc.fs, hist, ms.points⟩)

/-- The contents of `session.lock` (session_manager.py). -/
structure LockData where
  sessionId : String
  timestamp : Nat
  pid : Nat
deriving DecidableEq

/-- `SessionManager._check_session_lock`: no lock file (or an unreadable
one, which the except branch treats the same way) means no conflict; a
lock older than 300 seconds is stale and reported as no conflict; only a
younger lock reports a live session. -/
def check_session_lock (now : Nat) (lock : Option LockData) : Bool :=
  match lock with
  | none => false
  | some l => if now - l.timestamp > 300 then false else true

/-- `SessionManager._prompt_takeover` as shipped: the body is hard-coded
to `True` (its comment says "auto-takeover stale locks", but the caller
only reaches it for locks that are *not* stale). -/
def prompt_takeover : Bool := true

/-- The lock gate at the top of `SessionManager.start_session`: with a
live lock and a declined takeover it raises "Cannot start session -
another instance is running"; in every other case the session start
proceeds. -/
def start_session_gate (now : Nat) (lock : Option LockData) : Except String Unit :=
  if check_session_lock now lock then
    if prompt_takeover then Except.ok ()
    else Except.error "Cannot start session - another instance is running"
  else Except.ok ()

/-- A canonical JSON value of an audit-entry field: a string, or one of the
schema-less string-keyed payload maps (`details`, `context`). -/
inductive CanonVal
  | str (s : String)
  | dict (kvs : List (String × String))
deriving DecidableEq

/-- An audit entry as built by `AuditLogger.log_event` before the checksum
is attached: id, timestamp, event type, description, severity, details
payload and context block. -/
structure AuditEntry where
  id : String
  timestamp : String
  eventType : String
  description : String
  severity : String
  details : List (String × String)
  context : List (String × String)
deriving DecidableEq

/-- A written audit line: the entry plus the optional `checksum` field. -/
structure AuditLine where
  entry : AuditEntry
  checksum : Option String
deriving DecidableEq

/-- The canonical form hashed by `AuditLogger._calculate_checksum`:
`json.dumps(entry_without_checksum, sort_keys=True)` renders exactly the
entry's seven fields as key/value pairs in sorted key order
(context < description < details < event_type < id < severity <
timestamp); that rendering is injective, so the canonical form is modelled
as the sorted key/value list itself. -/
def canonicalForm (e : AuditEntry) : List (String × CanonVal) :=
  [("context", CanonVal.dict e.context),
   ("description", CanonVal.str e.description),
   ("details", CanonVal.dict e.details),
   ("event_type", CanonVal.str e.eventType),
   ("id", CanonVal.str e.id),
   ("severity", CanonVal.str e.severity),
   ("timestamp", CanonVal.str e.timestamp)]

/-- `AuditLogger._calculate_checksum`: drop the checksum field if present,
serialise the rest canonically, and digest it. SHA-256 is modelled as an
explicit digest function over the canonical form. -/
def calculate_checksum {D : Type} (digest : List (String × CanonVal) → D)
    (l : AuditLine) : D :=
  digest (canonicalForm l.entry)

/-- The checksum step of `AuditLogger.log_event`: with
`config['include_checksums']` the freshly built entry gets
`checksum = _calculate_checksum(entry)` attached; otherwise no checksum
field is written. -/
def log_event {D : Type} (digest : List (String × CanonVal) → D)
    (includeChecksums : Bool) (e : AuditEntry) : AuditEntry × Option D :=
  if includeChecksums then (e, some (calculate_checksum digest ⟨e, none⟩))
  else (e, none)

/-- Re-verification of a stored line: recompute the checksum of the entry
and compare with the stored one. -/
def line_verifies {D : Type} (digest : List (String × CanonVal) → D)
    (e : AuditEntry) (stored : Option D) : Prop :=
  stored = some (calculate_checksum digest ⟨e, none⟩)

/-- One filesystem-level action performed while persisting a JSON file:
an `open(path, 'w')`/`json.dump` whole-file write, or a `Path.replace`
atomic rename. -/
inductive FileAction
  | writeFile (path : Path) (content : String)
  | replaceFile (src : Path) (dst : Path)
deriving DecidableEq

/-- `MigrationTracker._save_migrations`: dump to
`migration_log.json`.with_suffix('.tmp') = `migration_log.tmp`, then
atomically replace `migration_log.json`. -/
def saveMigrationsTrace (s : String) : List FileAction :=
  [FileAction.writeFile "migration_log.tmp" s,
   FileAction.replaceFile "migration_log.tmp" "migration_log.json"]

/-- `MigrationTracker._save_transaction`: a single direct
`open('transaction_log.json', 'w')` dump — no temporary file, no rename. -/
def saveTransactionTrace (s : String) : List FileAction :=
  [FileAction.writeFile "transaction_log.json" s]

/-- `SessionManager._save_session`: dump to `current_session.tmp`, then
atomically replace `current_session.json`. -/
def saveSessionTrace (s : String) : List FileAction :=
  [FileAction.writeFile "current_session.tmp" s,
   FileAction.replaceFile "current_session.tmp" "current_session.json"]

/-- Whether a persistence procedure is the write-to-temp-then-atomic-rename
pattern for the given target file. -/
def isTempThenRename (target : Path) : List FileAction → Bool
  | [FileAction.writeFile tmp _, FileAction.replaceFile tmp2 tgt] =>
      tmp == tmp2 && tgt == target && tmp != target
  | _ => false

/-- On-disk JSON files as raw strings, for reasoning about crash states of
a persistence procedure. -/
abbrev Disk := Path → Option String

def applyAction (d : Disk) : FileAction → Disk
  | FileAction.writeFile p c => fun q => if q = p then some c else d q
  | FileAction.replaceFile src dst =>
      fun q => if q = dst then d src else if q = src then none else d q

/-- The states observable if the process dies in the middle of one action:
a whole-file write caught mid-flight leaves the written path holding an
arbitrary (e.g. truncated) string; a rename is atomic and has no
intermediate state. -/
def midWrite (d : Disk) : FileAction → Disk → Prop
  | FileAction.writeFile p _, dd => ∃ c, dd = fun q => if q = p then some c else d q
  | FileAction.replaceFile _ _, _ => False

/-- All disk states observable at any moment while a trace of persistence
actions runs: before each action, mid-way through a non-atomic write, or
after the whole trace. -/
def crashStates (d : Disk) : List FileAction → Disk → Prop
  | [] => fun dd => dd = d
  | a :: rest => fun dd =>
      dd = d ∨ midWrite d a dd ∨ crashStates (applyAction d a) rest dd

/-- Outcome of the underlying dump/rename inside
`MigrationTracker._save_migrations`: the except branch logs and re-raises,
so any I/O failure propagates to the caller. -/
def save_migrations_outcome (w : Except String Unit) : Except String Unit :=
  match w with
  | Except.ok _ => Except.ok ()
  | Except.error e => Except.error e

/-- Outcome of `MigrationTracker._save_transaction`: with no current
transaction it returns immediately; otherwise the except branch only logs
— a failed disk write is swallowed and the call returns normally. -/
def save_transaction_outcome (hasCurrent : Bool) (w : Except String Unit) :
    Except String Unit :=
  if hasCurrent then
    match w with
    | Except.ok _ => Except.ok ()
    | Except.error _ => Except.ok ()
  else Except.ok ()

/-- One approved `move` as driven by the external driver (§8 end-to-end
flow): build the tracker record for the source file, perform the move on
disk, and report success back to `complete_migration`. Returns the new
filesystem and the completed record. -/
def movedRecord (hashFn : Content → String) (t : Nat) (fs : FS)
    (txId : Option String) (src dst : Path) : FS × MigrationRecord :=
  let r0 := migrationRecordFor hashFn t fs txId src (some dst) Op.move
    "approved move" ⟨[]⟩
  let fs1 := fsMove fs src dst
  (fs1, complete_migration hashFn fs1 t r0 true none)

/-- A whole transaction of approved moves executed in program order. -/
def execMoves (hashFn : Content → String) (t : Nat) (txId : Option String)
    (fs : FS) : List (Path × Path) → FS × List MigrationRecord
  | [] => (fs, [])
  | (s, d) :: rest =>
      let step1 := movedRecord hashFn t fs txId s d
      let next := execMoves hashFn t txId step1.1 rest
      (next.1, step1.2 :: next.2)

/-! Concrete fixtures used by counterexamples and witnesses. -/

/-- A pending `move` record whose source hash was captured. -/
def c1rec : MigrationRecord :=
  { timestamp := 1, transactionId := none, operation := Op.move, sourcePath := "a"
    destPath := some "d", sourceHash := some "hx", destHash := none, fileSize := 2
    fileModified := some 10, filePermissions := some 420, reason := "r"
    metadata := ⟨[]⟩, status := Status.pending, error := none, completedAt := none
    rollbackTime := none, archivePath := none }

/-- An in-progress transaction occupying the tracker's slot. -/
def tx0c6 : Transaction :=
  { id := "old-tx", description := "old", startTime := 0, operations := []
    status := TxStatus.inProgress, failedOperations := none, endTime := none
    rollbackTime := none }

def st0c6 : TrackerState := ⟨[], some tx0c6, []⟩

/-- A successful `move` record whose saved mtime (100) no longer matches the
destination file's current mtime (999). -/
def c2rec : MigrationRecord :=
  { timestamp := 1, transactionId := some "T", operation := Op.move, sourcePath := "a"
    destPath := some "b", sourceHash := some "x", destHash := some "x", fileSize := 1
    fileModified := some 100, filePermissions := some 420, reason := "r"
    metadata := ⟨[]⟩, status := Status.success, error := none, completedAt := some 2
    rollbackTime := none, archivePath := none }

def c2tx : Transaction :=
  { id := "T", description := "d", startTime := 0, operations := [c2rec]
    status := TxStatus.inProgress, failedOperations := none, endTime := none
    rollbackTime := none }

def c2st : TrackerState := ⟨[c2rec], some c2tx, []⟩

/-- Destination file as found at rollback time: same content, mutated mtime. -/
def c2fs : FS := fun q => if q = "b" then some ⟨"x", 999, 420⟩ else none

/-- One source file about to be moved. -/
def c2wfs : FS := fun q => if q = "a" then some ⟨"x", 10, 420⟩ else none

def c2wtx : Transaction :=
  { id := "T", description := "d", startTime := 0
    operations := (execMoves (fun c => c) 1 (some "T") c2wfs [("a", "b")]).2
    status := TxStatus.inProgress, failedOperations := none, endTime := none
    rollbackTime := none }

def c2wst : TrackerState :=
  ⟨(execMoves (fun c => c) 1 (some "T") c2wfs [("a", "b")]).2, some c2wtx, []⟩

/-- A migration (timestamp 10) recorded after rollback point `p1`
(created at 5) whose destination file no longer exists, so its reversal
fails. -/
def c3mig : MigrationRecord :=
  { timestamp := 10, transactionId := none, operation := Op.move, sourcePath := "a"
    destPath := some "gone", sourceHash := some "x", destHash := some "x", fileSize := 1
    fileModified := some 3, filePermissions := some 420, reason := "r"
    metadata := ⟨[]⟩, status := Status.success, error := none, completedAt := some 4
    rollbackTime := none, archivePath := none }

def c3pt : RollbackPoint := ⟨"p1", "before", 5, "active"⟩

def c3ms : ManagerState :=
  ⟨⟨[c3mig], none, []⟩, fun _ => none, [], [("p1", c3pt)]⟩

/-- A transaction holding one successful and one failed record. -/
def c4recOk : MigrationRecord :=
  { c1rec with status := Status.success, destHash := some "hx" }

def c4recBad : MigrationRecord :=
  { c1rec with sourcePath := "z", status := Status.failed, error := some "boom" }

def c4tx : Transaction :=
  { id := "TX4", description := "d", startTime := 0
    operations := [c4recOk, c4recBad], status := TxStatus.inProgress
    failedOperations := none, endTime := none, rollbackTime := none }

def c4st : TrackerState := ⟨[c4recOk, c4recBad], some c4tx, []⟩

/-- Two distinct audit entries. -/
def e9a : AuditEntry :=
  ⟨"id1", "2025-01-01T00:00:00", "file_operation", "move a", "info",
    [("operation", "move")], [("process_id", "42")]⟩

def e9b : AuditEntry := { e9a with description := "move b" }

/-! Theorems settling the claims. -/

/-- Claim C4 (confirmed): `CommitTransaction` on an active transaction sets
the final status to `partial_failure` iff some member record is not
`success` (equivalently, with every record terminal, iff the failed count
is positive) and to `committed` otherwise, then archives the transaction
and clears the active-transaction slot. -/
theorem claim4_thm (now : Nat) (st : TrackerState) (tx : Transaction)
    (h : st.currentTransaction = some tx) :
    (commit_transaction now st).1.currentTransaction = none
    ∧ (commit_transaction now st).2 =
        [SaveAction.saveTransaction, SaveAction.archiveTransaction tx.id]
    ∧ ∃ tx1 : Transaction,
        (commit_transaction now st).1.archivedTransactions =
          st.archivedTransactions ++ [(tx.id, tx1)]
        ∧ tx1.operations = tx.operations
        ∧ (tx1.status = TxStatus.partFailure ↔ ∃ r ∈ tx.operations, r.status ≠ Status.success)
        ∧ (tx1.status = TxStatus.committed ↔ ∀ r ∈ tx.operations, r.status = Status.success)
        ∧ ((∀ r ∈ tx.operations, r.status = Status.success ∨ r.status = Status.failed) →
            (tx1.status = TxStatus.partFailure ↔
              0 < (tx.operations.filter (fun r => r.status = Status.failed)).length)) := by
  have hnil : (tx.operations.filter (fun op => op.status ≠ Status.success)).length = 0 ↔
      ∀ r ∈ tx.operations, r.status = Status.success := by
    rw [List.length_eq_zero, List.filter_eq_nil_iff]
    constructor
    · intro hall r hr; have := hall r hr; simpa using this
    · intro hall r hr; simp [hall r hr]
  have hcm : commit_transaction now st =
      ({ st with
          currentTransaction := none
          archivedTransactions := st.archivedTransactions ++
            [(tx.id,
              { tx with
                  endTime := some now
                  status := if (tx.operations.filter
                      (fun op => op.status ≠ Status.success)).length = 0
                    then TxStatus.committed else TxStatus.partFailure
                  failedOperations := if (tx.operations.filter
                      (fun op => op.status ≠ Status.success)).length = 0
                    then tx.failedOperations
                    else some (tx.operations.filter
                      (fun op => op.status ≠ Status.success)).length })] },
        [SaveAction.saveTransaction, SaveAction.archiveTransaction tx.id]) := by
    simp only [commit_transaction, h]
  rw [hcm]
  refine ⟨rfl, rfl, ⟨_, rfl, rfl, ?_, ?_, ?_⟩⟩
  · by_cases h0 : (tx.operations.filter (fun op => op.status ≠ Status.success)).length = 0
    · rw [if_pos h0]
      apply iff_of_false (by simp)
      rintro ⟨r, hr, hrs⟩
      exact hrs (hnil.mp h0 r hr)
    · rw [if_neg h0]
      apply iff_of_true rfl
      by_contra hne
      push_neg at hne
      exact h0 (hnil.mpr hne)
  · by_cases h0 : (tx.operations.filter (fun op => op.status ≠ Status.success)).length = 0
    · rw [if_pos h0]
      exact iff_of_true rfl (hnil.mp h0)
    · rw [if_neg h0]
      apply iff_of_false (by simp)
      intro hall
      exact h0 (hnil.mpr hall)
  · intro hterm
    have hfe : tx.operations.filter (fun op => op.status ≠ Status.success) =
        tx.operations.filter (fun r => r.status = Status.failed) := by
      apply List.filter_congr
      intro r hr
      rcases hterm r hr with h1 | h1 <;> simp [h1]
    by_cases h0 : (tx.operations.filter (fun op => op.status ≠ Status.success)).length = 0
    · rw [if_pos h0]
      rw [hfe] at h0
      apply iff_of_false (by simp)
      omega
    · rw [if_neg h0]
      rw [hfe] at h0
      exact iff_of_true rfl (by omega)

/-- Witness for C4: committing a concrete transaction with one failed
record clears the slot and archives it as `partial_failure`. -/
theorem claim4_witness :
    (commit_transaction 9 c4st).1.currentTransaction = none
    ∧ ∃ tx1 : Transaction,
        (commit_transaction 9 c4st).1.archivedTransactions =
          c4st.archivedTransactions ++ [(c4tx.id, tx1)]
        ∧ tx1.operations = c4tx.operations
        ∧ (tx1.status = TxStatus.partFailure ↔
            ∃ r ∈ c4tx.operations, r.status ≠ Status.success) := by
  have h := claim4_thm 9 c4st c4tx rfl
  obtain ⟨h1, _, tx1, h3, h4, h5, _⟩ := h
  exact ⟨h1, tx1, h3, h4, h5⟩

/-- Claim C5 (code_bug): with a lock only 100 seconds old (younger than the
300-second staleness threshold) a second `start_session` does NOT fail:
`_prompt_takeover` is hard-coded to `True`, so the live lock is silently
taken over and the gate returns success; a stale lock (400 seconds old)
also passes, as the claim says. -/
theorem claim5_thm :
    check_session_lock 1000 (some ⟨"other", 900, 42⟩) = true
    ∧ start_session_gate 1000 (some ⟨"other", 900, 42⟩) = Except.ok ()
    ∧ 1000 - 900 ≤ 300
    ∧ check_session_lock 1000 (some ⟨"other", 600, 42⟩) = false
    ∧ start_session_gate 1000 (some ⟨"other", 600, 42⟩) = Except.ok ()
    ∧ prompt_takeover = true :=
  ⟨rfl, rfl, by decide, rfl, rfl, rfl⟩

/-- Counterexample for C6: `start_transaction` invoked while `st0c6` holds
an in-progress transaction does not fail — it returns normally and the
slot now holds a brand-new empty transaction, discarding the old one. -/
theorem claim6_counterexample :
    st0c6.currentTransaction = some tx0c6
    ∧ (start_transaction 5 "d" st0c6).1.currentTransaction =
        some ⟨transactionId 5 "d", "d", 5, [], TxStatus.inProgress, none, none, none⟩
    ∧ transactionId 5 "d" ≠ tx0c6.id
    ∧ (start_transaction 5 "d" st0c6).2.1 = transactionId 5 "d" := by
  refine ⟨rfl, rfl, ?_, rfl⟩
  decide

/-- Claim C6 (corrected): `start_transaction` never fails; whatever the
current slot holds it installs a fresh empty in-progress transaction
(persisting it immediately via the transaction log), returns its id, and
leaves the migration log and archive untouched — so the tracker holds at
most one current transaction, but a previous in-progress transaction is
silently discarded rather than rejected. -/
theorem claim6_amended_thm (now : Nat) (description : String) (st : TrackerState) :
    (start_transaction now description st).1.currentTransaction =
      some ⟨transactionId now description, description, now, [],
        TxStatus.inProgress, none, none, none⟩
    ∧ (start_transaction now description st).2.1 = transactionId now description
    ∧ (start_transaction now description st).2.2 = [SaveAction.saveTransaction]
    ∧ (start_transaction now description st).1.migrations = st.migrations
    ∧ (start_transaction now description st).1.archivedTransactions =
        st.archivedTransactions := by
  exact ⟨rfl, rfl, rfl, rfl, rfl⟩

/-- Counterexample for C7: a failing disk write inside `_save_transaction`
is swallowed (the call reports success), while the same failure inside
`_save_migrations` propagates. -/
theorem claim7_counterexample :
    save_transaction_outcome true (Except.error "disk full") = Except.ok ()
    ∧ save_migrations_outcome (Except.error "disk full") = Except.error "disk full" :=
  ⟨rfl, rfl⟩

/-- Claim C7 (corrected): migration-log persistence failures always
propagate to the caller, but transaction-log persistence failures are
caught and logged — `_save_transaction` returns normally whatever the disk
does; hashing/metadata failures on a nonexistent source remain non-fatal
and are recorded as null fields (null hash, null mtime, null permissions,
size 0) on a normally returned pending record. -/
theorem claim7_amended_thm (hashFn : Content → String) (now : Nat) (fs : FS)
    (st : TrackerState) (src : Path) (dst : Option Path) (op : Op) (reason : String)
    (meta : Metadata) (hmissing : fs src = none) :
    (∀ w, save_migrations_outcome w = w)
    ∧ (∀ b w, save_transaction_outcome b w = Except.ok ())
    ∧ ((track_migration hashFn now fs st src dst op reason meta).2.1.sourceHash = none
       ∧ (track_migration hashFn now fs st src dst op reason meta).2.1.fileModified = none
       ∧ (track_migration hashFn now fs st src dst op reason meta).2.1.filePermissions = none
       ∧ (track_migration hashFn now fs st src dst op reason meta).2.1.fileSize = 0
       ∧ (track_migration hashFn now fs st src dst op reason meta).2.1.status = Status.pending) := by
  refine ⟨?_, ?_, ?_⟩
  · intro w; cases w <;> rfl
  · intro b w; cases b <;> cases w <;> rfl
  · cases hc : st.currentTransaction <;>
      simp [track_migration, migrationRecordFor, hmissing, hc]

/-- Witness for C7 at a concrete missing source. -/
theorem claim7_witness :
    (track_migration (fun c => c) 1 (fun _ => none) ⟨[], none, []⟩ "a" none
      Op.delete "gone" ⟨[]⟩).2.1.sourceHash = none
    ∧ save_transaction_outcome true (Except.error "e") = Except.ok () := by
  have h := claim7_amended_thm (fun c => c) 1 (fun _ => none) ⟨[], none, []⟩ "a" none
    Op.delete "gone" ⟨[]⟩ rfl
  exact ⟨h.2.2.1, h.2.1 true (Except.error "e")⟩

/-- Claim C10 (confirmed): `rollback_transaction` with an id that has no
archived transaction file, or with no id when no transaction is active,
returns `False` and performs nothing: tracker state (master log included)
and filesystem are returned untouched and no persistence call is made. -/
theorem claim10_thm (now : Nat) (fs : FS) (st : TrackerState) (tid : Option String)
    (h : (tid = none ∧ st.currentTransaction = none) ∨
        ∃ t, tid = some t ∧ st.archivedTransactions.lookup t = none) :
    rollback_transaction now fs st tid = (false, st, fs, []) := by
  rcases h with ⟨h1, h2⟩ | ⟨t, h1, h2⟩ <;>
    subst h1 <;> simp [rollback_transaction, h2]

/-- Witness for C10: an unknown transaction id on an empty tracker. -/
theorem claim10_witness :
    rollback_transaction 3 (fun _ => none) ⟨[], none, []⟩ (some "missing") =
      (false, ⟨[], none, []⟩, (fun _ => none), []) :=
  claim10_thm 3 (fun _ => none) ⟨[], none, []⟩ (some "missing")
    (Or.inr ⟨"missing", rfl, rfl⟩)

/-- Counterexample for C1: a reported-successful `move` whose destination
file does not exist is left with status `success` and no `dest_hash`, even
though its `source_hash` is known — so success does not require
`dest_hash`, and a known `source_hash` neither matches `dest_hash` nor
forces `failed`. -/
theorem claim1_counterexample :
    (complete_migration (fun c => c) (fun _ => none) 9 c1rec true none).status = Status.success
    ∧ (complete_migration (fun c => c) (fun _ => none) 9 c1rec true none).destHash = none
    ∧ c1rec.operation = Op.move
    ∧ c1rec.sourceHash = some "hx"
    ∧ c1rec.destPath = some "d" :=
  ⟨rfl, rfl, rfl, rfl, rfl⟩

/-- Claim C1 (corrected): a tracked record starts `pending` and
`complete_migration` moves it to a terminal status. When success is
reported and the destination file exists, `dest_hash` is computed; for
move/copy/archive with a known `source_hash`, either the hashes agree and
the record stays `success`, or the record is forced to `failed` with the
integrity error. But when the destination file does not exist the record
is left `success` with no `dest_hash`: success does not require
`dest_hash` in the code. -/
theorem claim1_amended_thm (hashFn : Content → String) (fs : FS) (now : Nat)
    (r : MigrationRecord) (success : Bool) (error : Option String) (d : Path)
    (hdest : r.destPath = some d) (hfresh : r.destHash = none) :
    (∀ (t : Nat) (fs0 : FS) (txId : Option String) (src : Path) (dst : Option Path)
        (op : Op) (reason : String) (meta : Metadata),
      (migrationRecordFor hashFn t fs0 txId src dst op reason meta).status = Status.pending)
    ∧ ((complete_migration hashFn fs now r success error).status = Status.success ∨
        (complete_migration hashFn fs now r success error).status = Status.failed)
    ∧ (success = true → ∀ f, fs d = some f →
        (complete_migration hashFn fs now r success error).destHash = some (hashFn f.content)
        ∧ ((r.operation = Op.move ∨ r.operation = Op.copy ∨ r.operation = Op.archive) →
            ∀ hsh, r.sourceHash = some hsh →
              (hsh = hashFn f.content ∧
                (complete_migration hashFn fs now r success error).status = Status.success ∧
                (complete_migration hashFn fs now r success error).destHash = some hsh) ∨
              (hsh ≠ hashFn f.content ∧
                (complete_migration hashFn fs now r success error).status = Status.failed ∧
                (complete_migration hashFn fs now r success error).error =
                  some "Hash verification failed")))
    ∧ (success = true → fs d = none →
        (complete_migration hashFn fs now r success error).status = Status.success
        ∧ (complete_migration hashFn fs now r success error).destHash = none) := by
  refine ⟨fun _ _ _ _ _ _ _ _ => rfl, ?_, ?_, ?_⟩
  · cases success with
    | false => right; simp [complete_migration]
    | true =>
        rcases hfsd : fs d with _ | f
        · left; simp [complete_migration, hdest, hfsd]
        · rcases hsrc : r.sourceHash with _ | hsh
          · left; simp [complete_migration, hdest, hfsd, hsrc]
          · by_cases hop : r.operation = Op.move ∨ r.operation = Op.copy ∨
                r.operation = Op.archive
            · by_cases heq : hsh = hashFn f.content
              · left; simp [complete_migration, hdest, hfsd, hsrc, hop, heq]
              · right; simp [complete_migration, hdest, hfsd, hsrc, hop, heq]
            · left; simp [complete_migration, hdest, hfsd, hsrc, hop]
  · rintro rfl f hfsd
    constructor
    · rcases hsrc : r.sourceHash with _ | hsh0
      · simp [complete_migration, hdest, hfsd, hsrc]
      · by_cases hop : r.operation = Op.move ∨ r.operation = Op.copy ∨
            r.operation = Op.archive
        · by_cases heq : hsh0 = hashFn f.content
          · simp [complete_migration, hdest, hfsd, hsrc, hop, heq]
          · simp [complete_migration, hdest, hfsd, hsrc, hop, heq]
        · simp [complete_migration, hdest, hfsd, hsrc, hop]
    · intro hop hsh hx
      by_cases heq : hsh = hashFn f.content
      · left
        refine ⟨heq, ?_, ?_⟩ <;> simp [complete_migration, hdest, hfsd, hx, hop, heq]
      · right
        refine ⟨heq, ?_, ?_⟩ <;> simp [complete_migration, hdest, hfsd, hx, hop, heq]
  · rintro rfl hfsd
    constructor <;> simp [complete_migration, hdest, hfsd, hfresh]

/-- Witness for C1: the amended theorem applied to the concrete record
`c1rec` over an empty filesystem. -/
theorem claim1_witness :
    (complete_migration (fun c => c) (fun _ => none) 9 c1rec true none).status = Status.success
    ∧ (complete_migration (fun c => c) (fun _ => none) 9 c1rec true none).destHash = none := by
  exact (claim1_amended_thm (fun c => c) (fun _ => none) 9 c1rec true none "d"
    rfl rfl).2.2.2 rfl rfl

/-- Counterexample for C8: the transaction-log write is not
temp-then-rename, and a crash mid-write can leave `transaction_log.json`
holding a partial string that is neither the old nor the new content. -/
theorem claim8_counterexample :
    isTempThenRename "transaction_log.json" (saveTransactionTrace "[new]") = false
    ∧ crashStates (fun q => if q = "transaction_log.json" then some "[old]" else none)
        (saveTransactionTrace "[new]")
        (fun q => if q = "transaction_log.json" then some "[" else none)
    ∧ ("[" : String) ≠ "[old]" ∧ ("[" : String) ≠ "[new]" := by
  refine ⟨rfl, ?_, by decide, by decide⟩
  refine Or.inr (Or.inl ⟨"[", ?_⟩)
  funext q
  by_cases hq : q = "transaction_log.json" <;> simp [hq]

/-- Claim C8 (corrected): the migration log and the current session file
are written by write-to-temp-then-atomic-rename, and on those traces every
crash-observable state shows the target holding either the complete old or
the complete new content; the in-progress transaction log, however, is a
single direct in-place write with no temporary file. -/
theorem claim8_amended_thm (s : String) :
    isTempThenRename "migration_log.json" (saveMigrationsTrace s) = true
    ∧ isTempThenRename "current_session.json" (saveSessionTrace s) = true
    ∧ saveTransactionTrace s = [FileAction.writeFile "transaction_log.json" s]
    ∧ (∀ d dd, crashStates d (saveMigrationsTrace s) dd →
        dd "migration_log.json" = d "migration_log.json"
        ∨ dd "migration_log.json" = some s)
    ∧ (∀ d dd, crashStates d (saveSessionTrace s) dd →
        dd "current_session.json" = d "current_session.json"
        ∨ dd "current_session.json" = some s) := by
  refine ⟨rfl, rfl, rfl, ?_, ?_⟩
  · intro d dd hcs
    rcases hcs with h | h | h
    · left; rw [h]
    · obtain ⟨c, rfl⟩ := h
      left; simp
    · rcases h with h | h | h
      · left; rw [h]; simp [applyAction]
      · exact absurd h id
      · have h2 : dd = applyAction (applyAction d (FileAction.writeFile "migration_log.tmp" s))
            (FileAction.replaceFile "migration_log.tmp" "migration_log.json") := h
        right; rw [h2]; simp [applyAction]
  · intro d dd hcs
    rcases hcs with h | h | h
    · left; rw [h]
    · obtain ⟨c, rfl⟩ := h
      left; simp
    · rcases h with h | h | h
      · left; rw [h]; simp [applyAction]
      · exact absurd h id
      · have h2 : dd = applyAction (applyAction d (FileAction.writeFile "current_session.tmp" s))
            (FileAction.replaceFile "current_session.tmp" "current_session.json") := h
        right; rw [h2]; simp [applyAction]

/-- Witness for C8: the atomicity statement applied to a concrete trace and
the crash state "nothing has run yet". -/
theorem claim8_witness :
    ((fun (_ : Path) => (none : Option String)) "migration_log.json" =
      (fun (_ : Path) => (none : Option String)) "migration_log.json")
    ∨ ((fun (_ : Path) => (none : Option String)) "migration_log.json" = some "x") := by
  exact (claim8_amended_thm "x").2.2.2.1 (fun _ => none) (fun _ => none) (Or.inl rfl)

/-- Claim C9 (confirmed): with checksums enabled, `log_event` stores the
digest of the canonical sorted-key form of the entry excluding the
checksum field; an unmodified entry re-verifies, and — since the canonical
form is injective in the entry and the digest is collision-free — mutating
any field of the entry changes the recomputed checksum. -/
theorem claim9_thm {D : Type} (digest : List (String × CanonVal) → D)
    (e : AuditEntry) (hinj : Function.Injective digest) :
    (log_event digest true e).2 = some (digest (canonicalForm e))
    ∧ line_verifies digest (log_event digest true e).1 (log_event digest true e).2
    ∧ ∀ eMut : AuditEntry, eMut ≠ e →
        calculate_checksum digest ⟨eMut, none⟩ ≠ calculate_checksum digest ⟨e, none⟩ := by
  refine ⟨rfl, rfl, ?_⟩
  intro eMut hne hEq
  apply hne
  have hcf : canonicalForm eMut = canonicalForm e := hinj hEq
  cases e; cases eMut
  simp only [canonicalForm, List.cons.injEq, Prod.mk.injEq, CanonVal.str.injEq,
    CanonVal.dict.injEq, and_true, true_and] at hcf
  obtain ⟨h1, h2, h3, h4, h5, h6, h7⟩ := hcf
  subst h1; subst h2; subst h3; subst h4; subst h5; subst h6; subst h7
  rfl

/-- Witness for C9: with the identity digest (injective by construction),
mutating the description of `e9a` changes the recomputed checksum. -/
theorem claim9_witness :
    calculate_checksum (fun l => l) (⟨e9b, none⟩ : AuditLine) ≠
      calculate_checksum (fun l => l) (⟨e9a, none⟩ : AuditLine) := by
  exact (claim9_thm (fun l => l) e9a (fun _ _ hx => hx)).2.2 e9b (by decide)

/-- `start_transaction` does not touch the master migration log. -/
theorem start_transaction_migrations (now : Nat) (description : String) (st : TrackerState) :
    (start_transaction now description st).1.migrations = st.migrations := rfl

/-- Claim C3 (confirmed): for an existing rollback point,
`rollback_to_point` reverses exactly the master-log records with
`timestamp > point.created_at`, in strict reverse order (the result is the
reversal loop run over that filtered list reversed); each reversal failure
is caught individually, appends one itemised message, and the loop
continues with the remaining records; the attempt is recorded in the
rollback history and the call returns `(errors == [], errors)`. -/
theorem claim3_thm (hashFn : Content → String) (now : Nat) (ms : ManagerState)
    (rid : String) (verify : Bool) (pt : RollbackPoint)
    (h : ms.points.lookup rid = some pt) :
    (rollback_to_point hashFn now ms rid verify).1 =
      (let st1 := (start_transaction now ("Rollback to " ++ rid) ms.tracker).1
       let acc := reverseLoop hashFn now ⟨ms.fs, st1, []⟩
         ((get_migrations_after ms.tracker.migrations pt.createdAt).reverse)
       let errs := if verify then acc.errors ++ verify_rollback hashFn acc.fs acc.st
         else acc.errors
       (errs.isEmpty, errs))
    ∧ (rollback_to_point hashFn now ms rid verify).1.1 =
        ((rollback_to_point hashFn now ms rid verify).1.2).isEmpty
    ∧ (rollback_to_point hashFn now ms rid verify).2.fs =
        (reverseLoop hashFn now
          ⟨ms.fs, (start_transaction now ("Rollback to " ++ rid) ms.tracker).1, []⟩
          ((get_migrations_after ms.tracker.migrations pt.createdAt).reverse)).fs
    ∧ (rollback_to_point hashFn now ms rid verify).2.history =
        ms.history ++ [⟨rid, now, (rollback_to_point hashFn now ms rid verify).1.2.isEmpty,
          (rollback_to_point hashFn now ms rid verify).1.2,
          (get_migrations_after (reverseLoop hashFn now
              ⟨ms.fs, (start_transaction now ("Rollback to " ++ rid) ms.tracker).1, []⟩
              ((get_migrations_after ms.tracker.migrations pt.createdAt).reverse)).st.migrations
            pt.createdAt).length⟩]
    ∧ (∀ (a : RbAcc) (r : MigrationRecord) (l : List MigrationRecord),
        reverseLoop hashFn now a (r :: l) =
          reverseLoop hashFn now (reverseStep hashFn now a r) l)
    ∧ (∀ (a : RbAcc) (r : MigrationRecord),
        (reverseStep hashFn now a r).errors =
          match reverse_migration hashFn now a.fs a.st r with
          | Except.ok _ => a.errors
          | Except.error e =>
              a.errors ++ ["Failed to reverse migration: " ++ r.sourcePath ++ " - " ++ e]) := by
  refine ⟨?_, ?_, ?_, ?_, ?_, ?_⟩
  · simp only [rollback_to_point, h, start_transaction_migrations]
  · simp only [rollback_to_point, h, start_transaction_migrations]
  · simp only [rollback_to_point, h, start_transaction_migrations]
  · simp only [rollback_to_point, h, start_transaction_migrations]
  · intro a r l; rfl
  · intro a r
    simp only [reverseStep]
    rcases reverse_migration hashFn now a.fs a.st r with e | pr
    · rfl
    · rfl

/-- Witness for C3: a concrete manager state with one migration after the
point whose reversal fails (its destination file is gone). -/
theorem claim3_witness :
    (rollback_to_point (fun c => c) 20 c3ms "p1" true).1.1 =
      ((rollback_to_point (fun c => c) 20 c3ms "p1" true).1.2).isEmpty := by
  exact (claim3_thm (fun c => c) 20 c3ms "p1" true c3pt rfl).2.1

/-! Helper lemmas for the move round-trip law (claim C2). -/

theorem reverseAll_cons (fs : FS) (r : MigrationRecord) (rs : List MigrationRecord) :
    reverseAll fs (r :: rs) =
      (if r.status = Status.success then reverse_operation (reverseAll fs rs) r
       else reverseAll fs rs) := by
  simp [reverseAll, List.reverse_cons, List.foldl_append]

theorem execMoves_cons (hashFn : Content → String) (t : Nat) (txId : Option String)
    (fs : FS) (s d : Path) (rest : List (Path × Path)) :
    execMoves hashFn t txId fs ((s, d) :: rest) =
      ((execMoves hashFn t txId (movedRecord hashFn t fs txId s d).1 rest).1,
        (movedRecord hashFn t fs txId s d).2 ::
          (execMoves hashFn t txId (movedRecord hashFn t fs txId s d).1 rest).2) := rfl

/-- The filesystem after one approved move of an existing source file. -/
theorem movedRecord_fs (hashFn : Content → String) (t : Nat) (fs0 : FS)
    (txId : Option String) (src dst : Path) (f : File) (hsrc : fs0 src = some f) :
    (movedRecord hashFn t fs0 txId src dst).1 = fsSet (fsRemove fs0 src) dst f := by
  simp [movedRecord, fsMove, hsrc]

/-- The completed record of one approved move of an existing source file:
the hashes agree, so the record ends `success`. -/
theorem movedRecord_rec (hashFn : Content → String) (t : Nat) (fs0 : FS)
    (txId : Option String) (src dst : Path) (f : File) (hsrc : fs0 src = some f) :
    (movedRecord hashFn t fs0 txId src dst).2 =
      { timestamp := t, transactionId := txId, operation := Op.move, sourcePath := src
        destPath := some dst, sourceHash := some (hashFn f.content)
        destHash := some (hashFn f.content), fileSize := f.content.length
        fileModified := some f.mtime, filePermissions := some f.perms
        reason := "approved move", metadata := ⟨[]⟩, status := Status.success
        error := none, completedAt := some t, rollbackTime := none
        archivePath := none } := by
  simp [movedRecord, migrationRecordFor, complete_migration, fsMove, hsrc, fsSet]

/-- Paths not involved in any move are untouched by the forward run. -/
theorem execMoves_untouched (hashFn : Content → String) (t : Nat) (txId : Option String) :
    ∀ (moves : List (Path × Path)) (fs0 : FS) (p : Path),
      (∀ x ∈ moves, p ≠ x.1 ∧ p ≠ x.2) →
      (execMoves hashFn t txId fs0 moves).1 p = fs0 p := by
  intro moves
  induction moves with
  | nil => intro fs0 p _; rfl
  | cons sd rest ih =>
      obtain ⟨s, d⟩ := sd
      intro fs0 p hp
      have hps : p ≠ s := (hp (s, d) (List.mem_cons_self _ _)).1
      have hpd : p ≠ d := (hp (s, d) (List.mem_cons_self _ _)).2
      rw [execMoves_cons]
      rw [ih _ p (fun x hx => hp x (List.mem_cons_of_mem _ hx))]
      show fsMove fs0 s d p = fs0 p
      rcases hfs : fs0 s with _ | f
      · simp [fsMove, hfs]
      · simp [fsMove, hfs, fsSet, fsRemove, hps, hpd]

/-- Round-trip law for the tracker-side rollback: executing a batch of
approved moves of distinct existing sources to distinct fresh destinations
and then reversing the produced records in reverse order restores the
original filesystem exactly. -/
theorem execMoves_roundtrip (hashFn : Content → String) (t : Nat) (txId : Option String) :
    ∀ (moves : List (Path × Path)) (fs0 : FS),
      (∀ x ∈ moves, (fs0 x.1).isSome) →
      (∀ x ∈ moves, fs0 x.2 = none) →
      (moves.map Prod.fst).Nodup →
      (moves.map Prod.snd).Nodup →
      (∀ x ∈ moves, ∀ y ∈ moves, x.1 ≠ y.2) →
      reverseAll (execMoves hashFn t txId fs0 moves).1
        (execMoves hashFn t txId fs0 moves).2 = fs0 := by
  intro moves
  induction moves with
  | nil => intro fs0 _ _ _ _ _; rfl
  | cons sd rest ih =>
      obtain ⟨s, d⟩ := sd
      intro fs0 hsome hnone hnds hndd hdisj
      obtain ⟨f, hf⟩ := Option.isSome_iff_exists.mp (hsome (s, d) (List.mem_cons_self _ _))
      have hsd : s ≠ d :=
        hdisj (s, d) (List.mem_cons_self _ _) (s, d) (List.mem_cons_self _ _)
      have hdnone : fs0 d = none := hnone (s, d) (List.mem_cons_self _ _)
      simp only [List.map_cons] at hnds hndd
      obtain ⟨hsnotin, hnds'⟩ := List.nodup_cons.mp hnds
      obtain ⟨hdnotin, hndd'⟩ := List.nodup_cons.mp hndd
      have hfs1 : (movedRecord hashFn t fs0 txId s d).1 = fsSet (fsRemove fs0 s) d f :=
        movedRecord_fs hashFn t fs0 txId s d f hf
      have hx1s : ∀ x ∈ rest, x.1 ≠ s := by
        intro x hx hcon
        exact hsnotin (by rw [← hcon]; exact List.mem_map_of_mem _ hx)
      have hx2d : ∀ x ∈ rest, x.2 ≠ d := by
        intro x hx hcon
        exact hdnotin (by rw [← hcon]; exact List.mem_map_of_mem _ hx)
      have hx1d : ∀ x ∈ rest, x.1 ≠ d := by
        intro x hx
        exact hdisj x (List.mem_cons_of_mem _ hx) (s, d) (List.mem_cons_self _ _)
      have hx2s : ∀ x ∈ rest, x.2 ≠ s := by
        intro x hx hcon
        exact (hdisj (s, d) (List.mem_cons_self _ _) x (List.mem_cons_of_mem _ hx)) hcon.symm
      have hsomem : ∀ x ∈ rest, ((fsSet (fsRemove fs0 s) d f) x.1).isSome := by
        intro x hx
        have h1 := hx1s x hx
        have h2 := hx1d x hx
        simp only [fsSet, fsRemove, if_neg h2, if_neg h1]
        exact hsome x (List.mem_cons_of_mem _ hx)
      have hnonem : ∀ x ∈ rest, (fsSet (fsRemove fs0 s) d f) x.2 = none := by
        intro x hx
        have h1 := hx2s x hx
        have h2 := hx2d x hx
        simp only [fsSet, fsRemove, if_neg h2, if_neg h1]
        exact hnone x (List.mem_cons_of_mem _ hx)
      have hdisj' : ∀ x ∈ rest, ∀ y ∈ rest, x.1 ≠ y.2 := by
        intro x hx y hy
        exact hdisj x (List.mem_cons_of_mem _ hx) y (List.mem_cons_of_mem _ hy)
      have ihh := ih (fsSet (fsRemove fs0 s) d f) hsomem hnonem hnds' hndd' hdisj'
      rw [execMoves_cons, hfs1, reverseAll_cons,
        movedRecord_rec hashFn t fs0 txId s d f hf]
      rw [if_pos rfl, ihh]
      funext p
      by_cases hps : p = s
      · subst hps
        simp [reverse_operation, fsSet, fsRemove, hf]
      · by_cases hpd : p = d
        · subst hpd
          simp [reverse_operation, fsSet, fsRemove, hsd, Ne.symm hsd, hdnone, hps]
        · simp [reverse_operation, fsSet, fsRemove, hps, hpd]

/-- Counterexample for C2: `rollback_transaction` on a transaction holding
one successful `move` record succeeds and moves the destination file back,
but the restored file keeps the destination's current mtime (999) instead
of the record's saved mtime (100) — the tracker-side reversal never
restores mtime. The manager-side reversal (`reverse_migration`) of the
same record does restore the saved mtime. -/
theorem claim2_counterexample :
    (rollback_transaction 7 c2fs c2st none).1 = true
    ∧ ((rollback_transaction 7 c2fs c2st none).2.2.1 "a").map File.mtime = some 999
    ∧ c2rec.fileModified = some 100
    ∧ ((rollback_transaction 7 c2fs c2st none).2.2.1 "a").map File.mtime ≠ c2rec.fileModified
    ∧ (∃ pr, reverse_migration (fun c => c) 7 c2fs ⟨[], none, []⟩ c2rec = Except.ok pr
        ∧ (pr.1 "a").map File.mtime = some 100) := by
  refine ⟨rfl, by decide, rfl, by decide, ⟨_, rfl, by decide⟩⟩

/-- Claim C2 (corrected): reversing a transaction whose every operation is
a successful `move` (of distinct existing sources to distinct fresh
destinations) via `rollback_transaction` restores every file to its
original path with byte-identical content — indeed the whole original
filesystem, including mtime and permissions, when nothing was disturbed in
between. But the two reversal paths differ on metadata: the manager-side
`reverse_migration` explicitly restores the record's saved mtime and
permissions, while the tracker-side `reverse_operation` restores only
permissions and leaves the file's mtime as currently found at the
destination. -/
theorem claim2_amended_thm (hashFn : Content → String) (t now : Nat) (fs0 : FS)
    (moves : List (Path × Path)) (st : TrackerState) (tx : Transaction)
    (hsome : ∀ x ∈ moves, (fs0 x.1).isSome)
    (hnone : ∀ x ∈ moves, fs0 x.2 = none)
    (hnds : (moves.map Prod.fst).Nodup)
    (hndd : (moves.map Prod.snd).Nodup)
    (hdisj : ∀ x ∈ moves, ∀ y ∈ moves, x.1 ≠ y.2)
    (hcur : st.currentTransaction = some tx)
    (hops : tx.operations = (execMoves hashFn t (some tx.id) fs0 moves).2) :
    (rollback_transaction now (execMoves hashFn t (some tx.id) fs0 moves).1 st none).1 = true
    ∧ (∀ p,
        (rollback_transaction now (execMoves hashFn t (some tx.id) fs0 moves).1 st none).2.2.1 p
          = fs0 p)
    ∧ (∀ (fs : FS) (st0 : TrackerState) (r : MigrationRecord) (d : Path) (f : File),
        (r.operation = Op.move ∨ r.operation = Op.archive) →
        r.destPath = some d → fs d = some f → d ≠ r.sourcePath →
        ∃ pr, reverse_migration hashFn now fs st0 r = Except.ok pr
          ∧ pr.1 r.sourcePath = some
              { content := f.content
                mtime := r.fileModified.getD f.mtime
                perms := r.filePermissions.getD f.perms }
          ∧ pr.1 d = none) := by
  refine ⟨?_, ?_, ?_⟩
  · simp [rollback_transaction, hcur]
  · intro p
    have hrt := execMoves_roundtrip hashFn t (some tx.id) moves fs0
      hsome hnone hnds hndd hdisj
    simp only [rollback_transaction, hcur]
    rw [hops, hrt]
  · intro fs st0 r d f hop hdest hfsd hds
    rcases hop with hop | hop
    · refine ⟨_, by simp only [reverse_migration, hop, hdest, hfsd]; rfl, ?_, ?_⟩
      · rcases hm : r.fileModified with _ | m <;>
          rcases hp : r.filePermissions with _ | pm <;>
            simp [fsSet, restore_file_metadata, hm, hp]
      · simp [fsSet, fsRemove, hds]
    · refine ⟨_, by simp only [reverse_migration, hop, hdest, hfsd]; rfl, ?_, ?_⟩
      · rcases hm : r.fileModified with _ | m <;>
          rcases hp : r.filePermissions with _ | pm <;>
            simp [fsSet, restore_file_metadata, hm, hp]
      · simp [fsSet, fsRemove, hds]

/-- Witness for C2 on one concrete move `a → b`. -/
theorem claim2_witness :
    (rollback_transaction 2 (execMoves (fun c => c) 1 (some "T") c2wfs [("a", "b")]).1
      c2wst none).2.2.1 "a" = c2wfs "a" := by
  have h := claim2_amended_thm (fun c => c) 1 2 c2wfs [("a", "b")] c2wst c2wtx
    (by decide) (by decide) (by decide) (by decide) (by decide) rfl rfl
  exact h.2.1 "a"

end VP
